import Mathlib

/-!
Verification development for the requisition-workflow application in
`src/requisiciones.py` (a single-file Flask app).  The route handlers
`new_requisition`, `process_almacen`, `process_compras`, `dashboard` and
`export_csv` are embedded as pure Lean functions; the SQLAlchemy session is
modelled by explicit state passing over a list of requisitions, where a
handler that returns before `db.session.commit()` leaves the store unchanged
(uncommitted ORM mutations are discarded at request teardown).  Python `int`
becomes `Int`, Python `float` becomes `ℚ`, and the result of Python
`int(...)`/`float(...)` parsing of a form field is an `Option` value
(`none` = the string raised `ValueError`).  Dates and datetimes are carried
as their ISO strings, which is how the code compares and renders them.
-/

namespace Requisiciones

/-! Section: String helpers

List-based embeddings of the Python string operations used by the handlers
(`str.strip`, `str.lower`, SQL `ILIKE '%q%'` containment, `" | ".join`).
-/

/-- Embedding of Python `str.strip()`: drop whitespace at both ends. -/
def pyStrip (s : String) : String :=
  ⟨((s.data.dropWhile Char.isWhitespace).reverse.dropWhile Char.isWhitespace).reverse⟩

/-- Embedding of Python `str.lower()` (ASCII-level, as used on usernames and
the project filter). -/
def pyLower (s : String) : String :=
  ⟨s.data.map Char.toLower⟩

/-- Does `cs` start with `pat`? -/
def startsWithChars : List Char → List Char → Bool
  | [], _ => true
  | _ :: _, [] => false
  | p :: ps, c :: cs => p == c && startsWithChars ps cs

/-- Does `cs` contain `pat` as a contiguous run?  Embeds SQL
`ILIKE '%pat%'` containment (after both sides are lowercased). -/
def containsChars (pat : List Char) : List Char → Bool
  | [] => startsWithChars pat []
  | c :: cs => startsWithChars pat (c :: cs) || containsChars pat cs

/-- Embedding of `sep.join(items)`. -/
def joinSep (sep : String) : List String → String
  | [] => ""
  | [x] => x
  | x :: y :: xs => x ++ sep ++ joinSep sep (y :: xs)

/-! Section: Data model

Embeddings of the `materials`, `requisitions` and `users` tables. -/

/-- One row of the `materials` table. -/
structure Material where
  id : Nat
  requisition_id : Nat
  descripcion : String
  unidad : String
  cantidad : Int
  revisado_qty : Int := 0
  stock_available : Int := 0
  costo_unitario : ℚ := 0
  comprado_qty : Int := 0
deriving DecidableEq

/-- One row of the `requisitions` table together with its owned
`materiales` rows (the SQLAlchemy relationship). -/
structure Requisition where
  id : Nat
  fecha_solicitud : String
  fecha_mantenimiento : String
  proyecto : String
  utilizacion : String
  prioridad : String
  estado : String := "Solicitado"
  solicitante_id : Nat
  proveedor : Option String := none
  costo_total : ℚ := 0
  revisado_por : Option Nat := none
  fecha_revision : Option String := none
  finalizado_por : Option Nat := none
  fecha_finalizacion : Option String := none
  materiales : List Material := []
deriving DecidableEq

/-- One row of the `users` table (password omitted: not used by the
embedded handlers). -/
structure User where
  id : Nat
  username : String
  role : String
deriving DecidableEq

/-- The persisted store: all requisition rows (each carrying its material
rows).  `db.session.commit()` after mutating a loaded requisition is
`updateStore`; a handler path that never commits returns the store as is. -/
def updateStore (store : List Requisition) (r : Requisition) : List Requisition :=
  store.map fun x => if x.id = r.id then r else x

/-! Section: Creation: `new_requisition` (POST branch) -/

/-- One of the ten material slots of the creation form: `desc_i`,
`unidad_i`, `cant_i`.  `cant` is the result of `int(cant_str)`:
`none` when the field is empty or unparsable. -/
structure Draft where
  desc : String
  unidad : String
  cant : Option Int

/-- A slot survives validation iff its stripped description and unit are
non-empty and its quantity parses to an integer `> 0`
(`new_requisition`, the `for i in range(1, 11)` loop). -/
def validDraft (d : Draft) : Bool :=
  decide (pyStrip d.desc ≠ "") && decide (pyStrip d.unidad ≠ "") &&
    (match d.cant with
     | some c => decide (0 < c)
     | none => false)

/-- The `Material` row inserted for the `i`-th valid slot. -/
def draftMaterial (reqId matBase i : Nat) (d : Draft) : Material :=
  { id := matBase + i, requisition_id := reqId,
    descripcion := pyStrip d.desc, unidad := pyStrip d.unidad,
    cantidad := d.cant.getD 0 }

/-- Embedding of the POST branch of `new_requisition`.  `fecha_mant` is the
result of `date.fromisoformat` on the submitted date (`none` = exception).
`nextId`/`matBase` stand for the ids the database generates at flush time.
The second component is the rejection flash message (`none` = the commit
succeeded). -/
def routeNew (user : User) (fecha_mant : Option String)
    (proyecto utilizacion prioridad : String) (drafts : List Draft)
    (today : String) (nextId matBase : Nat)
    (store : List Requisition) : List Requisition × Option String :=
  if user.role ≠ "Mantenimiento" then
    (store, some "Solo Mantenimiento puede crear requisiciones.")
  else
    match fecha_mant with
    | none => (store, some "Fecha de mantenimiento inválida.")
    | some fm =>
      let valid := drafts.filter validDraft
      if valid.length = 0 then
        (store, some "Debes capturar al menos un material válido.")
      else
        (store ++ [{ id := nextId, fecha_solicitud := today,
                     fecha_mantenimiento := fm,
                     proyecto := pyStrip proyecto,
                     utilizacion := pyStrip utilizacion,
                     prioridad := prioridad, estado := "Solicitado",
                     solicitante_id := user.id,
                     materiales := valid.enum.map fun p =>
                       draftMaterial nextId matBase p.1 p.2 }], none)

/-! Section: Warehouse step: `process_almacen` -/

/-- The warehouse form: `rev_{id}` and `stock_{id}` are the `int(...)`
parses of the numeric fields (`none` = `ValueError`; a missing field
defaults to the string `"0"`, i.e. `some 0`), `accion` is the selected
radio value (`none` = absent). -/
structure AlmacenForm where
  rev : Nat → Option Int
  stock : Nat → Option Int
  accion : Option String

/-- Per-material update of `process_almacen`: the two fields are parsed in
one `try` block, so if either raises, both fall back to `0`; then an
out-of-range reviewed quantity (negative or above `cantidad`) is reset to
`0`, and a negative stock is reset to `0`. -/
def almacenUpdateMaterial (form : AlmacenForm) (m : Material) : Material :=
  let vals : Int × Int :=
    match form.rev m.id, form.stock m.id with
    | some r, some s => (r, s)
    | _, _ => (0, 0)
  let rev_val := if vals.1 < 0 ∨ m.cantidad < vals.1 then 0 else vals.1
  let stock_val := if vals.2 < 0 then 0 else vals.2
  { m with revisado_qty := rev_val, stock_available := stock_val }

/-- The body of `process_almacen` once the role check and the 404 lookup
have passed: update every material, then require a valid `accion`; on an
invalid `accion` the handler flashes and returns without committing. -/
def almacenApply (user : User) (req : Requisition) (form : AlmacenForm)
    (now : String) : Except String Requisition :=
  let mats := req.materiales.map (almacenUpdateMaterial form)
  match form.accion with
  | some a =>
    if a = "Revisado - En Stock" ∨ a = "Revisado - Autorizada" then
      Except.ok { req with
                    materiales := mats, estado := a,
                    revisado_por := some user.id,
                    fecha_revision := some now }
    else Except.error "Acción de almacén inválida."
  | none => Except.error "Acción de almacén inválida."

/-- Embedding of the `process_almacen` route: role check, load by id
(`get_or_404`), apply, and commit only on success. -/
def routeAlmacen (user : User) (store : List Requisition) (req_id : Nat)
    (form : AlmacenForm) (now : String) : List Requisition × Option String :=
  if user.role ≠ "Almacén" then
    (store, some "Solo Almacén puede procesar requisiciones en este módulo.")
  else
    match store.find? (fun r => r.id == req_id) with
    | none => (store, some "404 Not Found")
    | some req =>
      match almacenApply user req form now with
      | Except.ok r => (updateStore store r, none)
      | Except.error msg => (store, some msg)

/-! Section: Purchasing step: `process_compras` -/

/-- The purchasing form: `proveedor` (raw text), `tipo_compra` radio value,
and per-material `cu_{id}` / `comprado_{id}` as the `float(...)` / `int(...)`
parses (`none` = `ValueError`; missing fields default to `"0"`). -/
structure ComprasForm where
  proveedor : String
  tipo_compra : Option String
  cu : Nat → Option ℚ
  comprado : Nat → Option Int

/-- The clamp applied to a submitted purchased quantity: negative values
become `0`, then values above `cantidad` become `cantidad`. -/
def clampComp (cantidad v : Int) : Int :=
  let v1 := if v < 0 then 0 else v
  if cantidad < v1 then cantidad else v1

/-- Per-material update of `process_compras`: parse failures fall back to
`0`/`0.0`, a negative unit cost becomes `0.0`, and the purchased quantity
is clamped to `[0, cantidad]`. -/
def comprasUpdateMaterial (form : ComprasForm) (m : Material) : Material :=
  { m with
    costo_unitario :=
      if (form.cu m.id).getD 0 < 0 then 0 else (form.cu m.id).getD 0,
    comprado_qty := clampComp m.cantidad ((form.comprado m.id).getD 0) }

/-- The updated material list of `process_compras`. -/
def comprasMats (form : ComprasForm) (req : Requisition) : List Material :=
  req.materiales.map (comprasUpdateMaterial form)

/-- The running `total` accumulated by the loop:
sum of `costo_unitario * comprado_qty` over the updated rows. -/
def comprasTotal (mats : List Material) : ℚ :=
  (mats.map fun m => m.costo_unitario * (m.comprado_qty : ℚ)).sum

/-- The `compra_parcial_detectada` flag: some updated row has
`comprado_qty < cantidad`. -/
def comprasParcial (mats : List Material) : Bool :=
  mats.any fun m => decide (m.comprado_qty < m.cantidad)

/-- The status written by `process_compras`. -/
def comprasEstado (form : ComprasForm) (mats : List Material) : String :=
  if form.tipo_compra = some "total" ∧ comprasParcial mats = false then
    "Comprado"
  else "Comprado (Parcial)"

/-- The body of `process_compras` once the role check and the 404 lookup
have passed: require a non-empty stripped supplier and a valid
`tipo_compra`, then update every material, the supplier, the total and the
status. -/
def comprasApply (req : Requisition) (form : ComprasForm) :
    Except String Requisition :=
  if pyStrip form.proveedor = "" then Except.error "Proveedor obligatorio."
  else if form.tipo_compra ≠ some "total" ∧ form.tipo_compra ≠ some "parcial" then
    Except.error "Debes indicar si la compra fue total o parcial."
  else
    Except.ok { req with
      proveedor := some (pyStrip form.proveedor),
      costo_total := comprasTotal (comprasMats form req),
      materiales := comprasMats form req,
      estado := comprasEstado form (comprasMats form req) }

/-- Embedding of the `process_compras` route. -/
def routeCompras (user : User) (store : List Requisition) (req_id : Nat)
    (form : ComprasForm) : List Requisition × Option String :=
  if user.role ≠ "Compras" then
    (store, some "Solo Compras puede registrar compras.")
  else
    match store.find? (fun r => r.id == req_id) with
    | none => (store, some "404 Not Found")
    | some req =>
      match comprasApply req form with
      | Except.ok r => (updateStore store r, none)
      | Except.error msg => (store, some msg)

/-! Section: Listing and CSV export: `dashboard` and `export_csv` -/

/-- Statuses visible to the Almacén role. -/
def estadosAlmacen : List String :=
  ["Solicitado", "Revisado - En Stock", "Revisado - Autorizada"]

/-- Statuses visible to the Compras role. -/
def estadosCompras : List String :=
  ["Revisado - Autorizada", "Comprado", "Comprado (Parcial)"]

/-- The per-role visibility filter shared by `dashboard` and
`export_csv`. -/
def roleScope (user : User) (reqs : List Requisition) : List Requisition :=
  if user.role = "Mantenimiento" then
    reqs.filter fun r => r.solicitante_id == user.id
  else if user.role = "Almacén" then
    reqs.filter fun r => estadosAlmacen.contains r.estado
  else if user.role = "Compras" then
    reqs.filter fun r => estadosCompras.contains r.estado
  else reqs

/-- The dashboard query-string filters.  `fecha_mantenimiento` is the
`date.fromisoformat` parse of the submitted date: `none` when the field is
empty or unparsable (either way no date filter is applied). -/
structure DashFilters where
  proyecto : String := ""
  prioridad : String := ""
  fecha_mantenimiento : Option String := none
  estado : String := ""

/-- The `proyecto ILIKE '%q%'` filter of `dashboard` (skipped when the
stripped, lowercased query is empty). -/
def filterProyecto (f : DashFilters) (reqs : List Requisition) :
    List Requisition :=
  let q := pyLower (pyStrip f.proyecto)
  if q ≠ "" then
    reqs.filter fun r => containsChars q.data (pyLower r.proyecto).data
  else reqs

/-- The priority filter of `dashboard`. -/
def filterPrioridad (f : DashFilters) (reqs : List Requisition) :
    List Requisition :=
  if f.prioridad ≠ "" then reqs.filter fun r => r.prioridad == f.prioridad
  else reqs

/-- The maintenance-date filter of `dashboard` (skipped when the field is
empty or fails to parse). -/
def filterFecha (f : DashFilters) (reqs : List Requisition) :
    List Requisition :=
  match f.fecha_mantenimiento with
  | some d => reqs.filter fun r => r.fecha_mantenimiento == d
  | none => reqs

/-- The status filter of `dashboard`. -/
def filterEstado (f : DashFilters) (reqs : List Requisition) :
    List Requisition :=
  if f.estado ≠ "" then reqs.filter fun r => r.estado == f.estado else reqs

/-- The optional filters of `dashboard`, applied after the role scope, in
the order the handler chains them onto the query. -/
def applyDashFilters (f : DashFilters) (reqs : List Requisition) :
    List Requisition :=
  filterEstado f (filterFecha f (filterPrioridad f (filterProyecto f reqs)))

/-- Insertion step for sorting requisitions by a Boolean "goes before"
relation. -/
def insertBy (before : Requisition → Requisition → Bool) (r : Requisition) :
    List Requisition → List Requisition
  | [] => [r]
  | x :: xs =>
    if before r x then r :: x :: xs else x :: insertBy before r xs

/-- Insertion sort of requisitions. -/
def sortBy (before : Requisition → Requisition → Bool)
    (l : List Requisition) : List Requisition :=
  l.foldr (insertBy before) []

/-- `dashboard`: role scope, optional filters, `ORDER BY id DESC`. -/
def dashboardList (user : User) (f : DashFilters)
    (reqs : List Requisition) : List Requisition :=
  sortBy (fun a b => b.id < a.id) (applyDashFilters f (roleScope user reqs))

/-- `export_csv` row selection: role scope, `ORDER BY id`. -/
def exportSelection (user : User) (reqs : List Requisition) :
    List Requisition :=
  sortBy (fun a b => a.id < b.id) (roleScope user reqs)

/-! Section: CSV rendering -/

/-- Truncated quotient used for digit extraction: the integer part of a
nonnegative rational. -/
def ipart (a : ℚ) : Int := a.num / (a.den : Int)

/-- Decimal digits of a rational in `[0, 1)`, most significant first,
stopping at the exact expansion or after `fuel` digits. -/
def fracDigits : Nat → ℚ → String
  | 0, _ => ""
  | fuel + 1, a =>
    if a = 0 then ""
    else
      let d : Int := ipart (a * 10)
      toString d ++ fracDigits fuel (a * 10 - (d : ℚ))

/-- Rendering of a `float` column by Python `str`, over the rational model:
sign, integer part, `"."`, fractional digits (`"0"` when the value is
integral).  Exact for the finite decimal values the form accepts
(`step 0.01`); binary-float artifacts are outside the rational model. -/
def floatStr (q : ℚ) : String :=
  let sign := if q < 0 then "-" else ""
  let a := |q|
  let ip := ipart a
  let fr := a - (ip : ℚ)
  sign ++ toString ip ++ "." ++ (if fr = 0 then "0" else fracDigits 17 fr)

/-- Rendering of `f"{x:.2f}"` over the rational model (round half away
from zero; binary-float tie behavior is outside the rational model). -/
def twoDecStr (q : ℚ) : String :=
  let sign := if q < 0 then "-" else ""
  let a := |q|
  let cents : Int := ipart (a * 100 + 1 / 2)
  let whole := cents / 100
  let frac := cents % 100
  sign ++ toString whole ++ "." ++
    (if frac < 10 then "0" ++ toString frac else toString frac)

/-- Python truthiness rendering of `r.revisado_por or ""` (an id of `0`
would also render empty). -/
def pyOrEmptyNat : Option Nat → String
  | some n => if n = 0 then "" else toString n
  | none => ""

/-- Rendering of `value or ""` for optional text columns. -/
def pyOrEmptyStr : Option String → String
  | some s => s
  | none => ""

/-- The flattened description of one material in the `Materiales_Detalle`
cell of `export_csv`. -/
def materialDetalle (m : Material) : String :=
  toString m.cantidad ++ " " ++ m.unidad ++ " " ++ m.descripcion ++
    " (Rev:" ++ toString m.revisado_qty ++
    " Stock:" ++ toString m.stock_available ++
    " CU:" ++ floatStr m.costo_unitario ++
    " Comprado:" ++ toString m.comprado_qty ++ ")"

/-- The `Materiales_Detalle` cell: one fragment per material, joined by
`" | "`. -/
def materialesDetalle (r : Requisition) : String :=
  joinSep " | " (r.materiales.map materialDetalle)

/-- The thirteen cells written by `writer.writerow` for one requisition. -/
def exportRow (r : Requisition) : List String :=
  [toString r.id, r.fecha_solicitud, r.fecha_mantenimiento, r.proyecto,
   r.utilizacion, r.prioridad, r.estado, toString r.solicitante_id,
   pyOrEmptyStr r.proveedor, twoDecStr r.costo_total,
   pyOrEmptyNat r.revisado_por, pyOrEmptyStr r.fecha_revision,
   materialesDetalle r]

/-! Section: Authorization transition (spec-modelled) -/

/-- Modelled from the spec: the `authorize` transition and the
`authorized` / `authorizedBy` / `authorizedAt` fields belong to a workflow
variant whose code is not present in `src/requisiciones.py`; this record
and `authorize` below follow spec §4.1 ("Authorize") word for word. -/
structure AuthRequisition where
  authorized : Bool
  authorizedBy : Option Nat := none
  authorizedAt : Option String := none
  estado : String
deriving DecidableEq

/-- Modelled from the spec: `authorize(requisitionId, actorId)`.  Guard:
the caller must be an authorizer, and `authorized` must currently be
`false` (idempotent-reject otherwise, reporting "already authorized" with
no state change); effect: set `authorized`, record the authorizer identity
and timestamp, and reset the status to Requested.  The first component is
the (possibly unchanged) persisted requisition, the second the rejection
report. -/
def authorize (actorId : Nat) (now : String) (isAuthorizer : Bool)
    (r : AuthRequisition) : AuthRequisition × Option String :=
  if ¬ isAuthorizer then (r, some "NotAuthorizer")
  else if r.authorized then (r, some "AlreadyAuthorized")
  else ({ r with
            authorized := true, authorizedBy := some actorId,
            authorizedAt := some now, estado := "Requested" }, none)

/-! Section: Helper lemmas -/

/-- The success path of `comprasApply`, once both guards pass. -/
theorem comprasApply_ok (req : Requisition) (form : ComprasForm)
    (hp : ¬ pyStrip form.proveedor = "")
    (ht : ¬ (form.tipo_compra ≠ some "total" ∧ form.tipo_compra ≠ some "parcial")) :
    comprasApply req form = Except.ok { req with
      proveedor := some (pyStrip form.proveedor),
      costo_total := comprasTotal (comprasMats form req),
      materiales := comprasMats form req,
      estado := comprasEstado form (comprasMats form req) } := by
  unfold comprasApply
  rw [if_neg hp, if_neg ht]

/-! Section: Example data used by witnesses and counterexamples -/

/-- A maintenance user, as seeded by `seed_users`. -/
def exUserMant : User := { id := 1, username := "mantenimiento1", role := "Mantenimiento" }

/-- The warehouse user. -/
def exUserAlm : User := { id := 3, username := "almacen", role := "Almacén" }

/-- A purchasing user. -/
def exUserCom : User := { id := 4, username := "compras1", role := "Compras" }

/-! Section: C2 — creation with zero valid line items -/

/-- C2: for every creation request in which no line-item slot passes
validation (non-empty stripped description and unit, integer quantity
`> 0`), `new_requisition` rejects with the "at least one valid material"
flash and the store is returned unchanged: neither the requisition nor any
material row is persisted. -/
theorem c2_zero_valid_items_rejected (user : User) (fm : String)
    (proyecto utilizacion prioridad : String) (drafts : List Draft)
    (today : String) (nextId matBase : Nat) (store : List Requisition)
    (hrole : user.role = "Mantenimiento")
    (hinv : ∀ d ∈ drafts, validDraft d = false) :
    routeNew user (some fm) proyecto utilizacion prioridad drafts today
        nextId matBase store =
      (store, some "Debes capturar al menos un material válido.") := by
  have hfil : drafts.filter validDraft = [] :=
    List.filter_eq_nil_iff.mpr (by simpa using hinv)
  simp [routeNew, hrole, hfil]

/-- Witness for C2 at a concrete request: one slot with an empty
description, one with quantity `0`, one unparsable. -/
theorem c2_zero_valid_items_rejected_witness :
    routeNew exUserMant (some "2024-05-01") "Proyecto X" "" "Media"
        [⟨"", "PZA", some 3⟩, ⟨"Tornillo", "PZA", some 0⟩, ⟨"Tuerca", "PZA", none⟩]
        "2024-04-30" 1 1 [] =
      ([], some "Debes capturar al menos un material válido.") :=
  c2_zero_valid_items_rejected exUserMant "2024-05-01" "Proyecto X" "" "Media"
    _ "2024-04-30" 1 1 [] rfl (by decide)

/-! Section: C4 — guard failures commit nothing -/

/-- C4: whenever any of the three mutating handlers answers with a
rejection flash (wrong role, 404, invalid warehouse action, missing
supplier, invalid purchase type, invalid maintenance date, no valid line
item), the store it returns is exactly the store it was given: no
requisition row and no material row changes. -/
theorem c4_guard_failures_leave_store_unchanged (u1 u2 u3 : User)
    (s : List Requisition) (rid1 rid2 : Nat) (af : AlmacenForm)
    (cf : ComprasForm) (now : String) (fecha : Option String)
    (proyecto utilizacion prioridad : String) (drafts : List Draft)
    (today : String) (nextId matBase : Nat) :
    ((routeAlmacen u1 s rid1 af now).2.isSome = true →
      (routeAlmacen u1 s rid1 af now).1 = s) ∧
    ((routeCompras u2 s rid2 cf).2.isSome = true →
      (routeCompras u2 s rid2 cf).1 = s) ∧
    ((routeNew u3 fecha proyecto utilizacion prioridad drafts today
        nextId matBase s).2.isSome = true →
      (routeNew u3 fecha proyecto utilizacion prioridad drafts today
        nextId matBase s).1 = s) := by
  refine ⟨?_, ?_, ?_⟩
  · unfold routeAlmacen
    split
    · simp
    · split
      · simp
      · split <;> simp
  · unfold routeCompras
    split
    · simp
    · split
      · simp
      · split <;> simp
  · unfold routeNew
    split
    · simp
    · split
      · simp
      · dsimp only
        split <;> simp

/-- Witness for C4: three concrete rejected calls (wrong role for the
warehouse and purchasing handlers; an invalid maintenance date for
creation) leave a one-requisition store untouched. -/
theorem c4_guard_failures_leave_store_unchanged_witness :
    (routeAlmacen exUserMant [] 1
        ⟨fun _ => some 0, fun _ => some 0, none⟩ "t").1 = [] ∧
    (routeCompras exUserMant [] 1
        ⟨"ACME", some "total", fun _ => some 0, fun _ => some 0⟩).1 = [] ∧
    (routeNew exUserMant none "P" "" "Media" [] "2024-04-30" 1 1 []).1 = [] := by
  have h := c4_guard_failures_leave_store_unchanged exUserMant exUserMant
    exUserMant [] 1 1 ⟨fun _ => some 0, fun _ => some 0, none⟩
    ⟨"ACME", some "total", fun _ => some 0, fun _ => some 0⟩ "t" none
    "P" "" "Media" [] "2024-04-30" 1 1
  exact ⟨h.1 rfl, h.2.1 rfl, h.2.2 rfl⟩

/-! Section: C6 — authorize on an already-authorized requisition -/

/-- C6: calling `authorize` (by an authorizer) on a requisition whose
`authorized` flag is already set reports AlreadyAuthorized and returns the
requisition with `authorized`, `authorizedBy`, `authorizedAt` and `estado`
exactly as they were. -/
theorem c6_authorize_already_authorized (actorId : Nat) (now : String)
    (r : AuthRequisition) (h : r.authorized = true) :
    authorize actorId now true r = (r, some "AlreadyAuthorized") := by
  simp [authorize, h]

/-- Witness for C6 at a concrete already-authorized requisition. -/
theorem c6_authorize_already_authorized_witness :
    authorize 7 "2024-05-02T10:00:00" true
        ⟨true, some 2, some "2024-05-01T09:00:00", "Requested"⟩ =
      (⟨true, some 2, some "2024-05-01T09:00:00", "Requested"⟩,
        some "AlreadyAuthorized") :=
  c6_authorize_already_authorized 7 "2024-05-02T10:00:00"
    ⟨true, some 2, some "2024-05-01T09:00:00", "Requested"⟩ rfl

/-! Section: C3 — the warehouse step has no status guard -/

/-- A requisition freshly created by maintenance, still in status
Solicitado. -/
def exReqSol : Requisition :=
  { id := 1, fecha_solicitud := "2024-04-30",
    fecha_mantenimiento := "2024-05-01", proyecto := "Proyecto X",
    utilizacion := "", prioridad := "Media", estado := "Solicitado",
    solicitante_id := 1,
    materiales := [{ id := 1, requisition_id := 1, descripcion := "Tuerca",
                     unidad := "PZA", cantidad := 5 }] }

/-- A warehouse form accepting everything as in stock. -/
def exFormAlm : AlmacenForm :=
  ⟨fun _ => some 0, fun _ => some 0, some "Revisado - En Stock"⟩

/-- Counterexample to C3 as stated: a requisition whose status is
"Solicitado" — not Purchased and not Purchased (Partial) — is processed by
the warehouse handler without any rejection: the call answers with no
rejection flash and the stored status changes to the submitted action. -/
theorem c3_counterexample :
    exReqSol.estado = "Solicitado" ∧
    ("Solicitado" ≠ "Comprado" ∧ "Solicitado" ≠ "Comprado (Parcial)") ∧
    (routeAlmacen exUserAlm [exReqSol] 1 exFormAlm "2024-05-02").2 = none ∧
    (routeAlmacen exUserAlm [exReqSol] 1 exFormAlm "2024-05-02").1.map
        Requisition.estado = ["Revisado - En Stock"] := by
  refine ⟨rfl, by decide, rfl, rfl⟩

/-- C3 as amended: the warehouse step is guarded only by the caller's role
and the submitted action value, never by the requisition's current status.
For every requisition — whatever its status — a warehouse caller's request
with action "Revisado - En Stock" or "Revisado - Autorizada" is accepted
and that action becomes the new status, while a request with any other (or
a missing) action value is rejected with an explanatory message and the
persisted requisition is left unchanged. -/
theorem c3_almacen_guarded_by_role_and_action (user : User)
    (store : List Requisition) (req_id : Nat) (form : AlmacenForm)
    (now : String) (req : Requisition)
    (hrole : user.role = "Almacén")
    (hfind : store.find? (fun r => r.id == req_id) = some req) :
    (∀ a, form.accion = some a →
      (a = "Revisado - En Stock" ∨ a = "Revisado - Autorizada") →
      routeAlmacen user store req_id form now =
        (updateStore store { req with
           materiales := req.materiales.map (almacenUpdateMaterial form),
           estado := a, revisado_por := some user.id,
           fecha_revision := some now }, none)) ∧
    ((∀ a, form.accion = some a →
        ¬ (a = "Revisado - En Stock" ∨ a = "Revisado - Autorizada")) →
      routeAlmacen user store req_id form now =
        (store, some "Acción de almacén inválida.")) := by
  constructor
  · intro a ha hval
    simp only [routeAlmacen, hrole, hfind]
    rw [if_neg (by simp)]
    simp [almacenApply, ha, hval]
  · intro hbad
    simp only [routeAlmacen, hrole, hfind]
    rw [if_neg (by simp)]
    cases hacc : form.accion with
    | none => simp [almacenApply, hacc]
    | some a => simp [almacenApply, hacc, hbad a hacc]

/-- Witness for the amended C3: on the concrete "Solicitado" requisition,
a valid action is accepted (status becomes the action) and an invalid
action is rejected leaving the store as is. -/
theorem c3_almacen_guarded_by_role_and_action_witness :
    routeAlmacen exUserAlm [exReqSol] 1 exFormAlm "2024-05-02" =
      (updateStore [exReqSol] { exReqSol with
         materiales := exReqSol.materiales.map (almacenUpdateMaterial exFormAlm),
         estado := "Revisado - En Stock", revisado_por := some exUserAlm.id,
         fecha_revision := some "2024-05-02" }, none) ∧
    routeAlmacen exUserAlm [exReqSol] 1
        ⟨fun _ => some 0, fun _ => some 0, some "Cancelar"⟩ "2024-05-02" =
      ([exReqSol], some "Acción de almacén inválida.") := by
  constructor
  · exact (c3_almacen_guarded_by_role_and_action exUserAlm [exReqSol] 1
      exFormAlm "2024-05-02" exReqSol rfl (by decide)).1
      "Revisado - En Stock" rfl (Or.inl rfl)
  · refine (c3_almacen_guarded_by_role_and_action exUserAlm [exReqSol] 1
      ⟨fun _ => some 0, fun _ => some 0, some "Cancelar"⟩ "2024-05-02"
      exReqSol rfl (by decide)).2 ?_
    intro a ha
    have h2 : a = "Cancelar" := by
      injection ha with h3
      exact h3.symm
    subst h2
    decide

/-! Section: C10 — warehouse numeric inputs are reset, never fatal -/

/-- C10: in the warehouse step, an out-of-range reviewed quantity is reset
to zero rather than clamped — a negative, above-requested or unparsable
`rev_` value stores `0`; an unparsable or negative `stock_` value stores
`0`; and with a valid action the handler succeeds no matter what the
numeric fields hold. -/
theorem c10_almacen_out_of_range_resets_to_zero (form : AlmacenForm)
    (m : Material) (user : User) (req : Requisition) (now : String) :
    (form.rev m.id = none →
      (almacenUpdateMaterial form m).revisado_qty = 0) ∧
    (∀ v : Int, form.rev m.id = some v → v < 0 →
      (almacenUpdateMaterial form m).revisado_qty = 0) ∧
    (∀ v : Int, form.rev m.id = some v → m.cantidad < v →
      (almacenUpdateMaterial form m).revisado_qty = 0) ∧
    (form.stock m.id = none →
      (almacenUpdateMaterial form m).stock_available = 0) ∧
    (∀ v : Int, form.stock m.id = some v → v < 0 →
      (almacenUpdateMaterial form m).stock_available = 0) ∧
    ((form.accion = some "Revisado - En Stock" ∨
        form.accion = some "Revisado - Autorizada") →
      (almacenApply user req form now).isOk = true) := by
  refine ⟨?_, ?_, ?_, ?_, ?_, ?_⟩
  · intro h
    cases hs : form.stock m.id <;>
      simp [almacenUpdateMaterial, h, hs]
  · intro v hv hneg
    cases hs : form.stock m.id
    · simp [almacenUpdateMaterial, hv, hs]
    · simp [almacenUpdateMaterial, hv, hs]
      omega
  · intro v hv hgt
    cases hs : form.stock m.id
    · simp [almacenUpdateMaterial, hv, hs]
    · simp [almacenUpdateMaterial, hv, hs]
      omega
  · intro h
    cases hr : form.rev m.id <;>
      simp [almacenUpdateMaterial, h, hr]
  · intro v hv hneg
    cases hr : form.rev m.id <;>
      simp [almacenUpdateMaterial, hv, hr, hneg]
  · intro hval
    rcases hval with h | h <;>
      simp [almacenApply, h, Except.isOk, Except.toBool]

/-- Witness for C10: a reviewed quantity of 999 against a requested
quantity of 5 stores 0 (not 5), a negative stock stores 0, and the call
still succeeds. -/
theorem c10_almacen_out_of_range_resets_to_zero_witness :
    (almacenUpdateMaterial ⟨fun _ => some 999, fun _ => some (-2), some "Revisado - En Stock"⟩
      { id := 1, requisition_id := 1, descripcion := "Tuerca",
        unidad := "PZA", cantidad := 5 }).revisado_qty = 0 ∧
    (almacenUpdateMaterial ⟨fun _ => some 999, fun _ => some (-2), some "Revisado - En Stock"⟩
      { id := 1, requisition_id := 1, descripcion := "Tuerca",
        unidad := "PZA", cantidad := 5 }).stock_available = 0 ∧
    (almacenApply exUserAlm exReqSol
      ⟨fun _ => some 999, fun _ => some (-2), some "Revisado - En Stock"⟩
      "2024-05-02").isOk = true := by
  have h := c10_almacen_out_of_range_resets_to_zero
    ⟨fun _ => some 999, fun _ => some (-2), some "Revisado - En Stock"⟩
    { id := 1, requisition_id := 1, descripcion := "Tuerca",
      unidad := "PZA", cantidad := 5 } exUserAlm exReqSol "2024-05-02"
  exact ⟨h.2.2.1 999 rfl (by decide), h.2.2.2.2.1 (-2) rfl (by decide),
    h.2.2.2.2.2 (Or.inl rfl)⟩

/-! Section: C1 — purchase status aggregation -/

/-- No updated row is short of its requested quantity iff the partial-buy
flag stays off. -/
theorem comprasParcial_eq_false_iff (mats : List Material) :
    comprasParcial mats = false ↔ ∀ m ∈ mats, m.cantidad ≤ m.comprado_qty := by
  simp [comprasParcial, List.any_eq_false]

/-- A reviewed-and-authorized requisition with three materials of
requested quantities 5, 3 and 2. -/
def exReqC1 : Requisition :=
  { id := 2, fecha_solicitud := "2024-04-30",
    fecha_mantenimiento := "2024-05-01", proyecto := "Proyecto X",
    utilizacion := "", prioridad := "Media",
    estado := "Revisado - Autorizada", solicitante_id := 1,
    materiales :=
      [{ id := 1, requisition_id := 2, descripcion := "A", unidad := "PZA",
         cantidad := 5 },
       { id := 2, requisition_id := 2, descripcion := "B", unidad := "PZA",
         cantidad := 3 },
       { id := 3, requisition_id := 2, descripcion := "C", unidad := "PZA",
         cantidad := 2 }] }

/-- A purchase submission recording zero purchased units for every item. -/
def exFormC1 : ComprasForm :=
  ⟨"ACME", some "total", fun _ => some 0, fun _ => some 0⟩

/-- Counterexample to C1 as stated: recording a purchase with purchased
quantities [0, 0, 0] (no item purchased, none excluded — this workflow
variant has no exclusion flags) yields status "Comprado (Parcial)", not
the Not Purchased status the claim requires; no such status exists in
this step. -/
theorem c1_counterexample :
    ((comprasApply exReqC1 exFormC1).toOption.map fun r =>
        (r.estado, r.materiales.map Material.comprado_qty)) =
      some ("Comprado (Parcial)", [0, 0, 0]) ∧
    "Comprado (Parcial)" ≠ "No Comprado" ∧
    "Comprado (Parcial)" ≠ "Not Purchased" := by
  refine ⟨rfl, by decide, by decide⟩

/-- C1 as amended: after Record Purchase the status is determined by the
submitted purchase type together with the clamped quantities — it is
"Comprado" exactly when the type is "total" and every stored item reaches
its requested quantity, and "Comprado (Parcial)" in every other case
(including all-zero purchases); there is no Not Purchased outcome. -/
theorem c1_status_from_tipo_and_clamped_quantities (req : Requisition)
    (form : ComprasForm) (r' : Requisition)
    (h : comprasApply req form = Except.ok r') :
    r'.estado = if form.tipo_compra = some "total" ∧
        ∀ m ∈ r'.materiales, m.cantidad ≤ m.comprado_qty
      then "Comprado" else "Comprado (Parcial)" := by
  unfold comprasApply at h
  split at h
  · simp at h
  split at h
  · simp at h
  injection h with h
  subst h
  simp only [comprasEstado, comprasParcial_eq_false_iff]

/-- A purchase submission asking for 999 units of everything. -/
def exFormC1W : ComprasForm :=
  ⟨"ACME", some "total", fun _ => some 0, fun _ => some 999⟩

/-- The stored result of recording that over-asking purchase on
`exReqC1`: every quantity is clamped to the requested one. -/
def exReqC1P : Requisition :=
  { exReqC1 with
    proveedor := some "ACME", costo_total := 0, estado := "Comprado",
    materiales :=
      [{ id := 1, requisition_id := 2, descripcion := "A", unidad := "PZA",
         cantidad := 5, comprado_qty := 5 },
       { id := 2, requisition_id := 2, descripcion := "B", unidad := "PZA",
         cantidad := 3, comprado_qty := 3 },
       { id := 3, requisition_id := 2, descripcion := "C", unidad := "PZA",
         cantidad := 2, comprado_qty := 2 }] }

/-- Witness for the amended C1: an over-asking "total" purchase of the
concrete three-item requisition is clamped to the requested quantities and
reported as "Comprado". -/
theorem c1_status_from_tipo_and_clamped_quantities_witness :
    exReqC1P.estado = "Comprado" := by
  have hm : comprasMats exFormC1W exReqC1 = exReqC1P.materiales := by decide
  have hcost : comprasTotal exReqC1P.materiales = 0 := by
    simp [comprasTotal, exReqC1P]
  have h : comprasApply exReqC1 exFormC1W = Except.ok exReqC1P := by
    rw [comprasApply_ok exReqC1 exFormC1W (by decide) (by decide), hm, hcost]
    simp only [Except.ok.injEq]
    decide
  exact (c1_status_from_tipo_and_clamped_quantities exReqC1 exFormC1W
    exReqC1P h).trans (by decide)

/-! Section: C5 — per-item clamping in Record Purchase -/

/-- A negative submitted purchase quantity is clamped to zero. -/
theorem clampComp_neg {cant v : Int} (h0 : 0 < cant) (hv : v < 0) :
    clampComp cant v = 0 := by
  simp only [clampComp]
  rw [if_pos hv, if_neg (by omega)]

/-- A submitted purchase quantity above the requested quantity is clamped
to the requested quantity. -/
theorem clampComp_over {cant v : Int} (hv : cant < v) :
    clampComp cant v = cant := by
  simp only [clampComp]
  by_cases h : v < 0
  · rw [if_pos h, if_pos (by omega)]
  · rw [if_neg h, if_pos hv]

/-- C5: Record Purchase clamps every per-item input — a negative unit cost
is stored as 0, a negative purchased quantity is stored as 0, a purchased
quantity above the requested quantity is stored as the requested quantity
— and on success the stored rows are exactly the clamped updates. -/
theorem c5_record_purchase_clamps (form : ComprasForm) (m : Material)
    (hpos : 0 < m.cantidad) :
    (∀ c : ℚ, form.cu m.id = some c → c < 0 →
      (comprasUpdateMaterial form m).costo_unitario = 0) ∧
    (∀ v : Int, form.comprado m.id = some v → v < 0 →
      (comprasUpdateMaterial form m).comprado_qty = 0) ∧
    (∀ v : Int, form.comprado m.id = some v → m.cantidad < v →
      (comprasUpdateMaterial form m).comprado_qty = m.cantidad) ∧
    (∀ (req r' : Requisition), comprasApply req form = Except.ok r' →
      r'.materiales = comprasMats form req) := by
  refine ⟨?_, ?_, ?_, ?_⟩
  · intro c hc hneg
    simp [comprasUpdateMaterial, hc, hneg]
  · intro v hv hneg
    have hq : (comprasUpdateMaterial form m).comprado_qty =
        clampComp m.cantidad v := by simp [comprasUpdateMaterial, hv]
    rw [hq, clampComp_neg hpos hneg]
  · intro v hv hgt
    have hq : (comprasUpdateMaterial form m).comprado_qty =
        clampComp m.cantidad v := by simp [comprasUpdateMaterial, hv]
    rw [hq, clampComp_over hgt]
  · intro req r' h
    unfold comprasApply at h
    split at h
    · simp at h
    split at h
    · simp at h
    injection h with h
    subst h
    rfl

/-- Witness for C5: unit cost −5 stores 0, purchased −7 stores 0, and
purchased 999 against requested 10 stores 10. -/
theorem c5_record_purchase_clamps_witness :
    (comprasUpdateMaterial ⟨"ACME", some "parcial", fun _ => some (-5), fun _ => some (-7)⟩
      { id := 1, requisition_id := 1, descripcion := "A", unidad := "PZA",
        cantidad := 10 }).costo_unitario = 0 ∧
    (comprasUpdateMaterial ⟨"ACME", some "parcial", fun _ => some (-5), fun _ => some (-7)⟩
      { id := 1, requisition_id := 1, descripcion := "A", unidad := "PZA",
        cantidad := 10 }).comprado_qty = 0 ∧
    (comprasUpdateMaterial ⟨"ACME", some "parcial", fun _ => some (-5), fun _ => some 999⟩
      { id := 1, requisition_id := 1, descripcion := "A", unidad := "PZA",
        cantidad := 10 }).comprado_qty = 10 := by
  have h1 := c5_record_purchase_clamps
    ⟨"ACME", some "parcial", fun _ => some (-5), fun _ => some (-7)⟩
    { id := 1, requisition_id := 1, descripcion := "A", unidad := "PZA",
      cantidad := 10 } (by decide)
  have h2 := c5_record_purchase_clamps
    ⟨"ACME", some "parcial", fun _ => some (-5), fun _ => some 999⟩
    { id := 1, requisition_id := 1, descripcion := "A", unidad := "PZA",
      cantidad := 10 } (by decide)
  exact ⟨h1.1 (-5) rfl (by decide), h1.2.1 (-7) rfl (by decide),
    h2.2.2.1 999 rfl (by decide)⟩

/-! Section: C7 — replaying Record Purchase is idempotent -/

/-- Re-running the per-item purchase update changes nothing: the clamp
reads only the immutable `id` and `cantidad`. -/
theorem comprasUpdateMaterial_idem (form : ComprasForm) (m : Material) :
    comprasUpdateMaterial form (comprasUpdateMaterial form m) =
      comprasUpdateMaterial form m := rfl

/-- Mapping the purchase update over an already-updated list changes
nothing. -/
theorem map_update_idem (form : ComprasForm) (l : List Material) :
    (l.map (comprasUpdateMaterial form)).map (comprasUpdateMaterial form) =
      l.map (comprasUpdateMaterial form) := by
  induction l with
  | nil => rfl
  | cons x xs ih => simp only [List.map_cons, comprasUpdateMaterial_idem, ih]

/-- The output of a successful `comprasApply` is a fixed point of
`comprasApply` for the same form. -/
theorem comprasApply_ok_fixed (req : Requisition) (form : ComprasForm)
    (hp : ¬ pyStrip form.proveedor = "")
    (ht : ¬ (form.tipo_compra ≠ some "total" ∧ form.tipo_compra ≠ some "parcial")) :
    comprasApply { req with
        proveedor := some (pyStrip form.proveedor),
        costo_total := comprasTotal (comprasMats form req),
        materiales := comprasMats form req,
        estado := comprasEstado form (comprasMats form req) } form =
      Except.ok { req with
        proveedor := some (pyStrip form.proveedor),
        costo_total := comprasTotal (comprasMats form req),
        materiales := comprasMats form req,
        estado := comprasEstado form (comprasMats form req) } := by
  rw [comprasApply_ok _ form hp ht]
  have hM : comprasMats form { req with
      proveedor := some (pyStrip form.proveedor),
      costo_total := comprasTotal (comprasMats form req),
      materiales := comprasMats form req,
      estado := comprasEstado form (comprasMats form req) } =
      comprasMats form req := map_update_idem form req.materiales
  rw [hM]

/-- C7: replaying Record Purchase with identical per-item inputs yields
the same stored status, total cost and per-item values as applying it
once — a successful result is a fixed point of the handler. -/
theorem c7_record_purchase_idempotent (req : Requisition)
    (form : ComprasForm) (r' : Requisition)
    (h : comprasApply req form = Except.ok r') :
    comprasApply r' form = Except.ok r' := by
  unfold comprasApply at h
  split at h
  · simp at h
  next hp =>
    split at h
    · simp at h
    next ht =>
      injection h with h
      subst h
      exact comprasApply_ok_fixed req form hp ht

/-- The one-item requisition used by the C7 witness. -/
def exReqC7 : Requisition :=
  { id := 3, fecha_solicitud := "2024-04-30",
    fecha_mantenimiento := "2024-05-01", proyecto := "Proyecto X",
    utilizacion := "", prioridad := "Media",
    estado := "Revisado - Autorizada", solicitante_id := 1,
    materiales := [{ id := 7, requisition_id := 3, descripcion := "A",
                     unidad := "PZA", cantidad := 1 }] }

/-- The purchase submission used by the C7 witness. -/
def exFormC7 : ComprasForm :=
  ⟨"ACME", some "total", fun _ => some 0, fun _ => some 1⟩

/-- The stored result of recording that purchase once. -/
def exReqC7P : Requisition :=
  { exReqC7 with
    proveedor := some "ACME", costo_total := 0, estado := "Comprado",
    materiales := [{ id := 7, requisition_id := 3, descripcion := "A",
                     unidad := "PZA", cantidad := 1, comprado_qty := 1 }] }

/-- Witness for C7: the concrete purchased requisition is a fixed point of
re-recording the same purchase. -/
theorem c7_record_purchase_idempotent_witness :
    comprasApply exReqC7P exFormC7 = Except.ok exReqC7P := by
  have hm : comprasMats exFormC7 exReqC7 =
      [{ id := 7, requisition_id := 3, descripcion := "A", unidad := "PZA",
         cantidad := 1, comprado_qty := 1 }] := by decide
  have hcost : comprasTotal
      [{ id := 7, requisition_id := 3, descripcion := "A", unidad := "PZA",
         cantidad := 1, comprado_qty := 1 }] = 0 := by
    simp [comprasTotal]
  have hstep : comprasApply exReqC7 exFormC7 = Except.ok exReqC7P := by
    rw [comprasApply_ok exReqC7 exFormC7 (by decide) (by decide), hm, hcost]
    simp only [Except.ok.injEq]
    decide
  exact c7_record_purchase_idempotent exReqC7 exFormC7 exReqC7P hstep

/-! Section: C8 — the CSV material-detail format -/

/-- Rendering the zero unit cost gives "0.0", as Python `str(0.0)` does. -/
theorem floatStr_zero : floatStr 0 = "0.0" := by
  unfold floatStr
  norm_num [ipart]
  decide

/-- An unpurchased material row: 5 PZA of "Tornillo". -/
def exMatC8 : Material :=
  { id := 11, requisition_id := 9, descripcion := "Tornillo",
    unidad := "PZA", cantidad := 5 }

/-- Counterexample to C8 as stated: the flattened line-item string opens
its parenthesis with `Rev:`/`Stock:` — not with `CU:` as the claimed
format requires — and contains no `Prov:` (or exclusion/receipt/withdrawal)
field at all. -/
theorem c8_counterexample :
    materialDetalle exMatC8 =
      "5 PZA Tornillo (Rev:0 Stock:0 CU:0.0 Comprado:0)" ∧
    startsWithChars "5 PZA Tornillo (CU:".data
      (materialDetalle exMatC8).data = false ∧
    containsChars "Prov:".data (materialDetalle exMatC8).data = false := by
  have hproj : exMatC8.costo_unitario = 0 := rfl
  have h : materialDetalle exMatC8 =
      "5 PZA Tornillo (Rev:0 Stock:0 CU:0.0 Comprado:0)" := by
    unfold materialDetalle
    rw [hproj, floatStr_zero]
    decide
  refine ⟨h, ?_, ?_⟩
  · rw [h]
    decide
  · rw [h]
    decide

/-- C8 as amended: the CSV export renders, for each requisition, a last
cell that joins its items with `" | "`, each item rendered as
`qty SP unit SP description SP (Rev:reviewed Stock:stock CU:cost
Comprado:purchased)`; there are no supplier, exclusion-flag, received or
withdrawal fields in this variant. -/
theorem c8_export_materials_format (r : Requisition) :
    (exportRow r).getLast? = some (joinSep " | " (r.materiales.map fun m =>
      toString m.cantidad ++ " " ++ m.unidad ++ " " ++ m.descripcion ++
      " (Rev:" ++ toString m.revisado_qty ++ " Stock:" ++
      toString m.stock_available ++ " CU:" ++ floatStr m.costo_unitario ++
      " Comprado:" ++ toString m.comprado_qty ++ ")")) := rfl

/-! Section: C9 — role-scoped listing and export -/

/-- Insertion keeps exactly the old elements plus the new one. -/
theorem mem_insertBy {b : Requisition → Requisition → Bool}
    {r x : Requisition} {l : List Requisition} :
    x ∈ insertBy b r l ↔ x = r ∨ x ∈ l := by
  induction l with
  | nil => simp [insertBy]
  | cons y ys ih =>
    simp only [insertBy]
    split
    · simp [List.mem_cons]
    · simp only [List.mem_cons, ih]
      tauto

/-- Sorting keeps exactly the old elements. -/
theorem mem_sortBy {b : Requisition → Requisition → Bool}
    {x : Requisition} {l : List Requisition} :
    x ∈ sortBy b l ↔ x ∈ l := by
  induction l with
  | nil => simp [sortBy]
  | cons y ys ih =>
    show x ∈ insertBy b y (sortBy b ys) ↔ _
    rw [mem_insertBy, ih]
    simp [List.mem_cons]

/-- The project filter only discards rows. -/
theorem mem_of_filterProyecto {f : DashFilters} {l : List Requisition}
    {r : Requisition} (h : r ∈ filterProyecto f l) : r ∈ l := by
  simp only [filterProyecto] at h
  split at h
  · exact (List.mem_filter.mp h).1
  · exact h

/-- The priority filter only discards rows. -/
theorem mem_of_filterPrioridad {f : DashFilters} {l : List Requisition}
    {r : Requisition} (h : r ∈ filterPrioridad f l) : r ∈ l := by
  simp only [filterPrioridad] at h
  split at h
  · exact (List.mem_filter.mp h).1
  · exact h

/-- The date filter only discards rows. -/
theorem mem_of_filterFecha {f : DashFilters} {l : List Requisition}
    {r : Requisition} (h : r ∈ filterFecha f l) : r ∈ l := by
  simp only [filterFecha] at h
  split at h
  · exact (List.mem_filter.mp h).1
  · exact h

/-- The status filter only discards rows. -/
theorem mem_of_filterEstado {f : DashFilters} {l : List Requisition}
    {r : Requisition} (h : r ∈ filterEstado f l) : r ∈ l := by
  simp only [filterEstado] at h
  split at h
  · exact (List.mem_filter.mp h).1
  · exact h

/-- Everything the dashboard shows comes from the role scope. -/
theorem mem_dashboardList_scope {user : User} {f : DashFilters}
    {reqs : List Requisition} {r : Requisition}
    (h : r ∈ dashboardList user f reqs) : r ∈ roleScope user reqs :=
  mem_of_filterProyecto (mem_of_filterPrioridad (mem_of_filterFecha
    (mem_of_filterEstado (mem_sortBy.mp h))))

/-- Everything the export emits comes from the role scope. -/
theorem mem_exportSelection_scope {user : User} {reqs : List Requisition}
    {r : Requisition} (h : r ∈ exportSelection user reqs) :
    r ∈ roleScope user reqs :=
  mem_sortBy.mp h

/-- For a maintenance user the role scope keeps only own requests. -/
theorem roleScope_mant {user : User} {reqs : List Requisition}
    {r : Requisition} (hrole : user.role = "Mantenimiento")
    (h : r ∈ roleScope user reqs) : r.solicitante_id = user.id := by
  simp [roleScope, hrole, List.mem_filter] at h
  exact h.2

/-- For the warehouse user the role scope keeps only the three statuses it
may see. -/
theorem roleScope_alm {user : User} {reqs : List Requisition}
    {r : Requisition} (hrole : user.role = "Almacén")
    (h : r ∈ roleScope user reqs) : r.estado ∈ estadosAlmacen := by
  simp [roleScope, hrole, List.mem_filter, estadosAlmacen] at h ⊢
  tauto

/-- For a purchasing user the role scope keeps only the three statuses it
may see. -/
theorem roleScope_com {user : User} {reqs : List Requisition}
    {r : Requisition} (hrole : user.role = "Compras")
    (h : r ∈ roleScope user reqs) : r.estado ∈ estadosCompras := by
  simp [roleScope, hrole, List.mem_filter, estadosCompras] at h ⊢
  tauto

/-- C9: listing and CSV export are role-scoped — a Mantenimiento caller
only ever sees requisitions they requested; Almacén only sees statuses
Solicitado / Revisado - En Stock / Revisado - Autorizada; Compras only
sees Revisado - Autorizada / Comprado / Comprado (Parcial). -/
theorem c9_listing_and_export_role_scoped (user : User) (f : DashFilters)
    (reqs : List Requisition) (r : Requisition) :
    (user.role = "Mantenimiento" →
      (r ∈ dashboardList user f reqs → r.solicitante_id = user.id) ∧
      (r ∈ exportSelection user reqs → r.solicitante_id = user.id)) ∧
    (user.role = "Almacén" →
      (r ∈ dashboardList user f reqs → r.estado ∈ estadosAlmacen) ∧
      (r ∈ exportSelection user reqs → r.estado ∈ estadosAlmacen)) ∧
    (user.role = "Compras" →
      (r ∈ dashboardList user f reqs → r.estado ∈ estadosCompras) ∧
      (r ∈ exportSelection user reqs → r.estado ∈ estadosCompras)) := by
  refine ⟨fun hrole => ⟨fun h => ?_, fun h => ?_⟩,
          fun hrole => ⟨fun h => ?_, fun h => ?_⟩,
          fun hrole => ⟨fun h => ?_, fun h => ?_⟩⟩
  · exact roleScope_mant hrole (mem_dashboardList_scope h)
  · exact roleScope_mant hrole (mem_exportSelection_scope h)
  · exact roleScope_alm hrole (mem_dashboardList_scope h)
  · exact roleScope_alm hrole (mem_exportSelection_scope h)
  · exact roleScope_com hrole (mem_dashboardList_scope h)
  · exact roleScope_com hrole (mem_exportSelection_scope h)

/-- Witness for C9: the maintenance user sees the concrete requisition it
requested on its dashboard, and that requisition is indeed its own. -/
theorem c9_listing_and_export_role_scoped_witness :
    exReqSol.solicitante_id = exUserMant.id :=
  ((c9_listing_and_export_role_scoped exUserMant ⟨"", "", none, ""⟩
    [exReqSol] exReqSol).1 rfl).1 (by decide)

end Requisiciones
